import Mathlib

/-!
Verification of the TFTP client glue (`src/client.rs`) and the server
binary's accept loop (`examples/server.rs`) of the PurpleMyst/tftp
repository, as a shallow embedding in Lean.

The repository's packet codec (`src/packet.rs`, `src/bytes.rs`), the
connection engine (`src/connection.rs`) and the `Server` type are not
among the given source files; the definitions that stand for them are
modelled from the specification and say so in their doc comments.
All other definitions are translated directly from the Rust source.
-/

namespace Tftp

/-- A socket address (host and port collapsed into one abstract value);
`to_socket_addrs` resolution happens outside the embedded code, so a
resolved address is just an opaque identifier. -/
abbrev SocketAddr := Nat

/-- One UDP datagram as observed at the socket: its payload bytes and
the source address it came from. -/
structure Datagram where
  payload : List Nat
  src : SocketAddr
deriving DecidableEq, Repr

/-- The state of a bound `std::net::UdpSocket` that the client code
manipulates: the local port it was bound to, the configured read
timeout (`None` means every receive blocks forever), and the peer the
socket has been `connect`ed to, if any.  Durations are modelled as
natural numbers. -/
structure UdpSocket where
  localPort : Nat
  readTimeout : Option Nat
  connectedTo : Option SocketAddr
deriving DecidableEq, Repr

/-- From `src/lib.rs` (usage in `src/client.rs` lines 52 and 110-112)
and the spec: the retransmission policy is a timeout duration per wait
plus an optional cap on retransmission attempts. -/
structure RetransmissionConfig where
  timeout : Nat
  max_retransmissions : Option Nat
deriving DecidableEq, Repr

/-- Transfer mode of a request (`Mode` in the repository's packet
module): `netascii` or `octet`. -/
inductive Mode
  | netascii
  | octet
deriving DecidableEq, Repr

/-- The wire string of a transfer mode, as bytes. -/
def Mode.bytes : Mode → List Nat
  | .netascii => [110, 101, 116, 97, 115, 99, 105, 105]
  | .octet => [111, 99, 116, 101, 116]

/-- Byte rendering of a filename. -/
def strBytes (s : String) : List Nat :=
  s.toList.map Char.toNat

/-- Modelled from the spec: wire encoding of a read request
(`Packet::rrq(file, mode).into_bytes()`; the codec module is not among
the given sources).  Layout per spec section 4.1: 2-byte opcode 1,
null-terminated filename, null-terminated mode string. -/
def rrqBytes (file : String) (mode : Mode) : List Nat :=
  [0, 1] ++ strBytes file ++ [0] ++ mode.bytes ++ [0]

/-- Modelled from the spec: wire encoding of a write request
(`Packet::wrq(file, mode).into_bytes()`).  Layout per spec section
4.1: 2-byte opcode 2, null-terminated filename, null-terminated mode
string. -/
def wrqBytes (file : String) (mode : Mode) : List Nat :=
  [0, 2] ++ strBytes file ++ [0] ++ mode.bytes ++ [0]

/-- Modelled from the spec: the decode-failure condition of the codec
(spec section 4.1: short buffer, missing terminator, unknown opcode,
oversize payload all yield `MalformedPacket`). -/
inductive ParseError
  | malformedPacket
deriving DecidableEq, Repr

/-- Modelled from the spec: wire encoding of an acknowledgment packet,
2-byte opcode 4 then the 2-byte block number, both big-endian. -/
def ackBytes (block : Nat) : List Nat :=
  [0, 4, block / 256 % 256, block % 256]

/-- Modelled from the spec: `Packet::<Ack>::from_bytes` — decoding a
buffer as an ACK packet.  It succeeds exactly on a 4-byte buffer whose
big-endian opcode is 4, yielding the big-endian block number; any
other buffer is a `MalformedPacket` failure. -/
def ackFromBytes : List Nat → Except ParseError Nat
  | [o1, o2, b1, b2] =>
      if o1 = 0 ∧ o2 = 4 then .ok (b1 * 256 + b2) else .error .malformedPacket
  | _ => .error .malformedPacket

/-- An error packet value (`Packet<Error>`): TFTP error code and
human-readable message. -/
structure ErrorPacket where
  code : Nat
  message : String
deriving DecidableEq, Repr

/-- Modelled from the spec: the `From<ParseError> for Packet<Error>`
conversion — a decode failure is convertible into an outgoing Error
packet with code 4 (illegal TFTP operation). -/
def ParseError.intoErrorPacket : ParseError → ErrorPacket
  | .malformedPacket => { code := 4, message := "Illegal TFTP operation" }

/-- The `std::io::Error` values the embedded client code can produce:
a send to an empty address list fails, a receive that never completes
fails (it blocks forever when no read timeout is set, or times out),
and a decode failure is wrapped into an error carrying the converted
Error packet (`io::Error::from(Packet<Error>)`). -/
inductive IoError
  | noAddresses
  | recvFailed
  | packetErr (p : ErrorPacket)
deriving DecidableEq, Repr

/-- One observable socket operation performed by the client code, in
program order. -/
inductive SockEvent
  | sendTo (payload : List Nat) (dests : List SocketAddr)
  | recvFrom (payload : List Nat) (src : SocketAddr)
  | peekFrom (payload : List Nat) (src : SocketAddr)
  | connect (addr : SocketAddr)
deriving DecidableEq, Repr

/-- Whether a socket event is an outgoing datagram. -/
def SockEvent.isSend : SockEvent → Bool
  | .sendTo _ _ => true
  | _ => false

/-- Modelled from the spec: the `Connection` handed to the transfer
engine (`src/connection.rs` is not among the given sources) — the now
connected socket plus the optional retransmission cap. -/
structure Connection where
  socket : UdpSocket
  max_retransmissions : Option Nat
deriving DecidableEq, Repr

/-- `Connection::new(socket, max_retransmissions)`. -/
def Connection.new (socket : UdpSocket) (max_retransmissions : Option Nat) : Connection :=
  { socket, max_retransmissions }

/-- The `New` builder state (`src/client.rs` lines 17-20): a bound
socket and the optional retransmission policy. -/
structure New where
  socket : UdpSocket
  retransmission_config : Option RetransmissionConfig
deriving DecidableEq, Repr

/-- The `ConnectTo` builder state (`src/client.rs` lines 26-30): the
resolved server addresses, the socket and the policy. -/
structure ConnectTo where
  server : List SocketAddr
  socket : UdpSocket
  retransmission_config : Option RetransmissionConfig
deriving DecidableEq, Repr

/-- `Builder<T>` (`src/client.rs` lines 33-35). -/
structure Builder (T : Type) where
  data : T
deriving DecidableEq, Repr

/-- `Client` (`src/client.rs` lines 38-42). -/
structure Client where
  server : List SocketAddr
  socket : UdpSocket
  retransmission_config : Option RetransmissionConfig
deriving DecidableEq, Repr

/-- `Builder::<New>::new` (`src/client.rs` lines 47-60).  The random
ephemeral port chosen by `rand::thread_rng` is passed in explicitly;
the fresh socket starts unconnected, and its read timeout is set to
the policy's timeout when a policy is given and left unset otherwise
(`socket.set_read_timeout(retransmission_config.map(|conf| conf.timeout))`). -/
def Builder.new (port : Nat) (retransmission_config : Option RetransmissionConfig) :
    Builder New :=
  { data :=
      { socket :=
          { localPort := port
            readTimeout := retransmission_config.map (fun conf => conf.timeout)
            connectedTo := none }
        retransmission_config } }

/-- `Builder::<New>::connect_to` (`src/client.rs` lines 63-72).  The
`ToSocketAddrs` resolution happens outside the embedded code, so the
already-resolved address list is the argument. -/
def Builder.connect_to (b : Builder New) (server : List SocketAddr) :
    Builder ConnectTo :=
  { data :=
      { server
        socket := b.data.socket
        retransmission_config := b.data.retransmission_config } }

/-- `Builder::<ConnectTo>::build` (`src/client.rs` lines 77-83). -/
def Builder.build (b : Builder ConnectTo) : Client :=
  { server := b.data.server
    socket := b.data.socket
    retransmission_config := b.data.retransmission_config }

/-- `Builder::<ConnectTo>::try_clone` (`src/client.rs` lines 86-94):
it runs `Builder::new` again — binding a brand-new socket on a fresh
ephemeral port — and pairs that new socket with a copy of the original
server list and the original retransmission policy.  `freshPort` is
the new random port; the original builder is only read (`&self`). -/
def Builder.try_clone (b : Builder ConnectTo) (freshPort : Nat) :
    Builder ConnectTo :=
  let new_sock_builder := Builder.new freshPort b.data.retransmission_config
  { data :=
      { server := b.data.server
        socket := new_sock_builder.data.socket
        retransmission_config := b.data.retransmission_config } }

/-- `Client::get` up to the engine handoff (`src/client.rs` lines
99-114): send the RRQ to the whole resolved server list, `peek_from`
the first inbound datagram to learn the responding address without
consuming it, `connect` the socket to that address, and construct the
`Connection` with the policy's retransmission cap.  `arrivals` is the
stream of datagrams the network will deliver to this socket; the
result pairs the socket-event trace with either an error or the
constructed `Connection` together with the inbound stream left for the
engine.  A send to an empty address list fails (std `send_to`
semantics), and a receive on an empty stream never completes. -/
def Client.getHandshake (c : Client) (file : String) (mode : Mode)
    (arrivals : List Datagram) :
    List SockEvent × Except IoError (Connection × List Datagram) :=
  if c.server = [] then ([], .error .noAddresses)
  else
    let rrq := rrqBytes file mode
    match arrivals with
    | [] => ([SockEvent.sendTo rrq c.server], .error .recvFailed)
    | d :: rest =>
        ([SockEvent.sendTo rrq c.server,
          SockEvent.peekFrom d.payload d.src,
          SockEvent.connect d.src],
         .ok
           (Connection.new { c.socket with connectedTo := some d.src }
              (c.retransmission_config.bind (fun conf => conf.max_retransmissions)),
            d :: rest))

/-- `Client::put` up to the engine handoff (`src/client.rs` lines
118-141): send the WRQ to the whole resolved server list, `recv_from`
the first inbound datagram (consuming it), `connect` the socket to its
source address, decode the datagram as an ACK — discarding the decoded
value — and on decode failure return `io::Error::from` of the
converted Error packet without any further send; on success construct
the `Connection` with the policy's retransmission cap. -/
def Client.putHandshake (c : Client) (file : String) (mode : Mode)
    (arrivals : List Datagram) :
    List SockEvent × Except IoError (Connection × List Datagram) :=
  if c.server = [] then ([], .error .noAddresses)
  else
    let wrq := wrqBytes file mode
    match arrivals with
    | [] => ([SockEvent.sendTo wrq c.server], .error .recvFailed)
    | d :: rest =>
        let trace := [SockEvent.sendTo wrq c.server,
                      SockEvent.recvFrom d.payload d.src,
                      SockEvent.connect d.src]
        match ackFromBytes d.payload with
        | .error e => (trace, .error (.packetErr e.intoErrorPacket))
        | .ok _ =>
            (trace,
             .ok
               (Connection.new { c.socket with connectedTo := some d.src }
                  (c.retransmission_config.bind (fun conf => conf.max_retransmissions)),
                rest))

/-- Modelled from the spec: the outcome of the connection engine's run
(`Connection::get` / `Connection::put` are not among the given
sources).  The engine drives the transfer to `Complete` or to a
failure; `none` is success, `some e` a typed failure. -/
abbrev EngineOutcome := Option IoError

/-- `Client::get` end to end (`src/client.rs` line 114 tail-calls
`conn.get(writer)`).  Modelled from the spec for the engine part: on
engine success the caller-supplied sink is returned, on engine failure
the typed error is. -/
def Client.get {W : Type} (c : Client) (file : String) (mode : Mode)
    (arrivals : List Datagram) (writer : W) (engine : EngineOutcome) :
    Except IoError W :=
  match (Client.getHandshake c file mode arrivals).2 with
  | .error e => .error e
  | .ok _ =>
      match engine with
      | none => .ok writer
      | some e => .error e

/-- `Client::put` end to end (`src/client.rs` line 141 tail-calls
`conn.put(reader)`).  Modelled from the spec for the engine part: on
engine success unit is returned, on engine failure the typed error
is. -/
def Client.put (c : Client) (file : String) (mode : Mode)
    (arrivals : List Datagram) (engine : EngineOutcome) :
    Except IoError Unit :=
  match (Client.putHandshake c file mode arrivals).2 with
  | .error e => .error e
  | .ok _ =>
      match engine with
      | none => .ok ()
      | some e => .error e

/-- Outcome of handling one accepted request in the server binary:
`h.handle()` in `examples/server.rs` returns `Ok(())` or `Err(e)`;
the failure reason is the debug rendering of `e`. -/
inductive HandleOutcome
  | ok
  | fail (reason : String)
deriving DecidableEq, Repr

/-- The one line the accept loop prints per handled request
(`examples/server.rs` lines 14-18): `print!("Handling request...")`
followed on the same line by `println!("OK")` on success or
`println!("FAIL: {:?}", e)` on failure. -/
def requestLine : HandleOutcome → String
  | .ok => "Handling request..." ++ "OK"
  | .fail reason => "Handling request..." ++ "FAIL: " ++ reason

/-- The accept loop of the server binary (`examples/server.rs` lines
13-19) as a function from the sequence of `server.serve()` results to
the lines it prints: `none` stands for `serve` returning `Err` (the
`while let` exits), `some h` for an accepted request whose handling
produced `h`.  `Server::serve` and the handler are not among the given
sources; their results are the input sequence, modelled from the
spec. -/
def serverLoopLines : List (Option HandleOutcome) → List String
  | [] => []
  | none :: _ => []
  | some h :: rest => requestLine h :: serverLoopLines rest

/-! Concrete sample values used by the witness theorems. -/

/-- A sample bound socket. -/
def sampleSocket : UdpSocket :=
  { localPort := 4000, readTimeout := none, connectedTo := none }

/-- A sample client whose resolved server list is the single address 5
and whose retransmission policy is absent. -/
def sampleClient : Client :=
  { server := [5], socket := sampleSocket, retransmission_config := none }

/-- A sample inbound datagram carrying a well-formed ACK(0) from
address 9. -/
def sampleAck0 : Datagram := { payload := ackBytes 0, src := 9 }

/-! Theorems for the claims. -/

/-- C1: during `Client::put`, exactly one WRQ carrying the given
filename and mode is sent to the resolved server list before any
datagram is received; the first reply is then consumed, and a
`Connection` is produced exactly when it decodes as an ACK — a decode
failure yields an error instead, never a `Connection`. -/
theorem put_sends_single_wrq_then_requires_ack (c : Client) (file : String)
    (mode : Mode) (d : Datagram) (rest : List Datagram) (hs : c.server ≠ []) :
    (Client.putHandshake c file mode (d :: rest)).1
      = [SockEvent.sendTo (wrqBytes file mode) c.server,
         SockEvent.recvFrom d.payload d.src,
         SockEvent.connect d.src]
    ∧ (∀ n, ackFromBytes d.payload = Except.ok n →
        (Client.putHandshake c file mode (d :: rest)).2
          = Except.ok
              (Connection.new { c.socket with connectedTo := some d.src }
                 (c.retransmission_config.bind (fun conf => conf.max_retransmissions)),
               rest))
    ∧ (∀ e, ackFromBytes d.payload = Except.error e →
        (Client.putHandshake c file mode (d :: rest)).2
          = Except.error (IoError.packetErr e.intoErrorPacket)) := by
  refine ⟨?_, ?_, ?_⟩
  · cases h : ackFromBytes d.payload <;>
      simp [Client.putHandshake, hs, h]
  · intro n h
    simp [Client.putHandshake, hs, h, Connection.new]
  · intro e h
    simp [Client.putHandshake, hs, h]

/-- C1 witness: a concrete put handshake whose reply is ACK(0)
produces the connection. -/
theorem put_sends_single_wrq_then_requires_ack_witness :
    (Client.putHandshake sampleClient "f" Mode.octet [sampleAck0]).2
      = Except.ok
          (Connection.new { sampleClient.socket with connectedTo := some sampleAck0.src }
             (sampleClient.retransmission_config.bind (fun conf => conf.max_retransmissions)),
           []) :=
  (put_sends_single_wrq_then_requires_ack sampleClient "f" Mode.octet sampleAck0 []
      (by decide)).2.1 0 (by rfl)

/-- C2 counterexample: when the first reply of a concrete put is a
Data packet (not an ACK), the transfer fails, yet the only datagram
ever sent is the initial WRQ — no Error reply is sent to the peer,
contrary to the claim. -/
theorem put_no_error_reply_counterexample :
    (Client.putHandshake sampleClient "f" Mode.octet
        [{ payload := [0, 3, 0, 1, 65], src := 9 }]).2
      = Except.error
          (IoError.packetErr { code := 4, message := "Illegal TFTP operation" })
    ∧ ((Client.putHandshake sampleClient "f" Mode.octet
          [{ payload := [0, 3, 0, 1, 65], src := 9 }]).1.filter SockEvent.isSend)
      = [SockEvent.sendTo (wrqBytes "f" Mode.octet) [5]] := by
  constructor <;> rfl

/-- C2 amended: if the first reply does not decode as an ACK, the
decode failure is converted into an Error packet with code 4 (illegal
operation) which is returned to the caller as the failure; no Error
datagram is sent to the peer (the WRQ stays the only send), and no
`Connection` is constructed. -/
theorem put_decode_failure_returned_to_caller (c : Client) (file : String)
    (mode : Mode) (d : Datagram) (rest : List Datagram) (e : ParseError)
    (hs : c.server ≠ []) (hd : ackFromBytes d.payload = Except.error e) :
    (Client.putHandshake c file mode (d :: rest)).2
      = Except.error (IoError.packetErr e.intoErrorPacket)
    ∧ e.intoErrorPacket.code = 4
    ∧ ((Client.putHandshake c file mode (d :: rest)).1.countP SockEvent.isSend) = 1 := by
  refine ⟨?_, ?_, ?_⟩
  · simp [Client.putHandshake, hs, hd]
  · cases e; rfl
  · simp [Client.putHandshake, hs, hd, SockEvent.isSend, List.countP, List.countP.go]

/-- C2 amended witness: the concrete failing handshake evaluated
through the amended theorem. -/
theorem put_decode_failure_returned_to_caller_witness :
    (Client.putHandshake sampleClient "f" Mode.octet
        [{ payload := [0, 3, 0, 1, 65], src := 9 }]).2
      = Except.error
          (IoError.packetErr ParseError.malformedPacket.intoErrorPacket)
    ∧ ParseError.malformedPacket.intoErrorPacket.code = 4
    ∧ ((Client.putHandshake sampleClient "f" Mode.octet
          [{ payload := [0, 3, 0, 1, 65], src := 9 }]).1.countP SockEvent.isSend) = 1 :=
  put_decode_failure_returned_to_caller sampleClient "f" Mode.octet
    { payload := [0, 3, 0, 1, 65], src := 9 } [] ParseError.malformedPacket
    (by decide) (by rfl)

/-- C3: during `Client::get`, exactly one RRQ carrying the given
filename and mode is sent before any receive, the first inbound
datagram is only peeked at (the stream handed to the engine still
begins with it), and the trace holds no send besides the RRQ. -/
theorem get_sends_single_rrq_and_peeks (c : Client) (file : String)
    (mode : Mode) (d : Datagram) (rest : List Datagram) (hs : c.server ≠ []) :
    Client.getHandshake c file mode (d :: rest)
      = ([SockEvent.sendTo (rrqBytes file mode) c.server,
          SockEvent.peekFrom d.payload d.src,
          SockEvent.connect d.src],
         Except.ok
           (Connection.new { c.socket with connectedTo := some d.src }
              (c.retransmission_config.bind (fun conf => conf.max_retransmissions)),
            d :: rest))
    ∧ ((Client.getHandshake c file mode (d :: rest)).1.countP SockEvent.isSend) = 1 := by
  constructor
  · simp [Client.getHandshake, hs, Connection.new]
  · simp [Client.getHandshake, hs, SockEvent.isSend, List.countP, List.countP.go]

/-- C3 witness: a concrete get handshake, with the Data reply left
unconsumed for the engine. -/
theorem get_sends_single_rrq_and_peeks_witness :
    Client.getHandshake sampleClient "f" Mode.octet
        [{ payload := [0, 3, 0, 1, 65], src := 9 }]
      = ([SockEvent.sendTo (rrqBytes "f" Mode.octet) [5],
          SockEvent.peekFrom [0, 3, 0, 1, 65] 9,
          SockEvent.connect 9],
         Except.ok
           (Connection.new { sampleSocket with connectedTo := some 9 } none,
            [{ payload := [0, 3, 0, 1, 65], src := 9 }]))
    ∧ ((Client.getHandshake sampleClient "f" Mode.octet
          [{ payload := [0, 3, 0, 1, 65], src := 9 }]).1.countP SockEvent.isSend) = 1 :=
  get_sends_single_rrq_and_peeks sampleClient "f" Mode.octet
    { payload := [0, 3, 0, 1, 65], src := 9 } [] (by decide)

/-- C4: with no retransmission policy, `Builder::new` leaves the
socket's read timeout unset (every receive blocks forever) and the
`Connection` built by `Client::get` carries no retransmission cap;
with a policy present, its timeout duration is applied to the
socket. -/
theorem absent_policy_blocks_forever_unlimited (port : Nat)
    (servers : List SocketAddr) (file : String) (mode : Mode) (d : Datagram)
    (rest : List Datagram) (r : RetransmissionConfig) (hs : servers ≠ []) :
    (Builder.new port none).data.socket.readTimeout = none
    ∧ (Builder.new port (some r)).data.socket.readTimeout = some r.timeout
    ∧ (Client.getHandshake (((Builder.new port none).connect_to servers).build)
          file mode (d :: rest)).2
        = Except.ok
            (Connection.new
               { localPort := port, readTimeout := none, connectedTo := some d.src }
               none,
             d :: rest) := by
  refine ⟨rfl, rfl, ?_⟩
  simp [Client.getHandshake, Builder.new, Builder.connect_to, Builder.build, hs,
    Connection.new]

/-- C4 witness: the policy-handling theorem at a concrete port,
policy and reply. -/
theorem absent_policy_blocks_forever_unlimited_witness :
    (Builder.new 4000 none).data.socket.readTimeout = none
    ∧ (Builder.new 4000 (some { timeout := 3, max_retransmissions := some 5 })).data.socket.readTimeout
        = some ({ timeout := 3, max_retransmissions := some 5 } : RetransmissionConfig).timeout
    ∧ (Client.getHandshake (((Builder.new 4000 none).connect_to [5]).build)
          "f" Mode.octet [sampleAck0]).2
        = Except.ok
            (Connection.new
               { localPort := 4000, readTimeout := none, connectedTo := some sampleAck0.src }
               none,
             [sampleAck0]) :=
  absent_policy_blocks_forever_unlimited 4000 [5] "f" Mode.octet sampleAck0 []
    { timeout := 3, max_retransmissions := some 5 } (by decide)

/-- C5: `try_clone` yields a builder whose socket is a freshly bound,
unconnected socket on the new ephemeral port — distinct from the
original socket — while the server list and the retransmission policy
are equal to the original's (which, being only read, stays intact). -/
theorem try_clone_fresh_socket_same_config (b : Builder ConnectTo)
    (freshPort : Nat) (h : freshPort ≠ b.data.socket.localPort) :
    (b.try_clone freshPort).data.server = b.data.server
    ∧ (b.try_clone freshPort).data.retransmission_config
        = b.data.retransmission_config
    ∧ (b.try_clone freshPort).data.socket
        = { localPort := freshPort
            readTimeout := b.data.retransmission_config.map (fun conf => conf.timeout)
            connectedTo := none }
    ∧ (b.try_clone freshPort).data.socket ≠ b.data.socket := by
  refine ⟨rfl, rfl, rfl, ?_⟩
  intro heq
  exact h (congrArg UdpSocket.localPort heq)

/-- C5 witness: cloning a concrete builder onto a different fresh
port. -/
theorem try_clone_fresh_socket_same_config_witness :
    (Builder.try_clone
        { data :=
            { server := [5], socket := sampleSocket,
              retransmission_config := some { timeout := 3, max_retransmissions := some 5 } } }
        4001).data.server = [5]
    ∧ (Builder.try_clone
          { data :=
              { server := [5], socket := sampleSocket,
                retransmission_config := some { timeout := 3, max_retransmissions := some 5 } } }
          4001).data.retransmission_config
        = some { timeout := 3, max_retransmissions := some 5 }
    ∧ (Builder.try_clone
          { data :=
              { server := [5], socket := sampleSocket,
                retransmission_config := some { timeout := 3, max_retransmissions := some 5 } } }
          4001).data.socket
        = { localPort := 4001, readTimeout := some 3, connectedTo := none }
    ∧ (Builder.try_clone
          { data :=
              { server := [5], socket := sampleSocket,
                retransmission_config := some { timeout := 3, max_retransmissions := some 5 } } }
          4001).data.socket ≠ sampleSocket :=
  try_clone_fresh_socket_same_config
    { data :=
        { server := [5], socket := sampleSocket,
          retransmission_config := some { timeout := 3, max_retransmissions := some 5 } } }
    4001 (by decide)

/-- C6: the retransmission policy handed to `Builder::new` flows
unchanged through `connect_to` and `build` into the `Client`; the
socket's read timeout is exactly the policy's timeout component, and
the cap handed to the `Connection` is exactly its
`max_retransmissions` component. -/
theorem policy_immutable_through_pipeline (port : Nat)
    (cfg : Option RetransmissionConfig) (servers : List SocketAddr)
    (file : String) (mode : Mode) (d : Datagram) (rest : List Datagram)
    (hs : servers ≠ []) :
    (Builder.new port cfg).data.retransmission_config = cfg
    ∧ ((Builder.new port cfg).connect_to servers).data.retransmission_config = cfg
    ∧ (((Builder.new port cfg).connect_to servers).build).retransmission_config = cfg
    ∧ (((Builder.new port cfg).connect_to servers).build).socket.readTimeout
        = cfg.map (fun conf => conf.timeout)
    ∧ (Client.getHandshake (((Builder.new port cfg).connect_to servers).build)
          file mode (d :: rest)).2
        = Except.ok
            (Connection.new
               { localPort := port
                 readTimeout := cfg.map (fun conf => conf.timeout)
                 connectedTo := some d.src }
               (cfg.bind (fun conf => conf.max_retransmissions)),
             d :: rest) := by
  refine ⟨rfl, rfl, rfl, rfl, ?_⟩
  simp [Client.getHandshake, Builder.new, Builder.connect_to, Builder.build, hs,
    Connection.new]

/-- C6 witness: the pipeline with a concrete policy carrying both a
timeout and a cap. -/
theorem policy_immutable_through_pipeline_witness :
    (Builder.new 4000 (some { timeout := 3, max_retransmissions := some 5 })).data.retransmission_config
        = some { timeout := 3, max_retransmissions := some 5 }
    ∧ ((Builder.new 4000 (some { timeout := 3, max_retransmissions := some 5 })).connect_to
          [5]).data.retransmission_config
        = some { timeout := 3, max_retransmissions := some 5 }
    ∧ (((Builder.new 4000 (some { timeout := 3, max_retransmissions := some 5 })).connect_to
          [5]).build).retransmission_config
        = some { timeout := 3, max_retransmissions := some 5 }
    ∧ (((Builder.new 4000 (some { timeout := 3, max_retransmissions := some 5 })).connect_to
          [5]).build).socket.readTimeout
        = (some { timeout := 3, max_retransmissions := some 5 } :
            Option RetransmissionConfig).map (fun conf => conf.timeout)
    ∧ (Client.getHandshake
          (((Builder.new 4000 (some { timeout := 3, max_retransmissions := some 5 })).connect_to
              [5]).build) "f" Mode.octet [sampleAck0]).2
        = Except.ok
            (Connection.new
               { localPort := 4000
                 readTimeout := (some { timeout := 3, max_retransmissions := some 5 } :
                     Option RetransmissionConfig).map (fun conf => conf.timeout)
                 connectedTo := some sampleAck0.src }
               ((some { timeout := 3, max_retransmissions := some 5 } :
                   Option RetransmissionConfig).bind (fun conf => conf.max_retransmissions)),
             [sampleAck0]) :=
  policy_immutable_through_pipeline 4000
    (some { timeout := 3, max_retransmissions := some 5 }) [5] "f" Mode.octet
    sampleAck0 [] (by decide)

/-- C7: in the server binary's accept loop, an accepted request whose
handling fails contributes exactly one printed line, ending in the
failure reason, and the loop goes on to serve the remaining requests;
a successfully handled request likewise contributes exactly one line
and the loop continues. -/
theorem accept_loop_one_line_per_request (reason : String)
    (rest : List (Option HandleOutcome)) :
    serverLoopLines (some (HandleOutcome.fail reason) :: rest)
      = ("Handling request..." ++ "FAIL: " ++ reason) :: serverLoopLines rest
    ∧ serverLoopLines (some HandleOutcome.ok :: rest)
      = ("Handling request..." ++ "OK") :: serverLoopLines rest :=
  ⟨rfl, rfl⟩

/-- C8: `Client::get` either returns the caller-supplied sink
(complete success) or a typed error, and `Client::put` either returns
unit or a typed error — there is no third, partial outcome. -/
theorem get_and_put_report_no_partial_success {W : Type} (c : Client)
    (file : String) (mode : Mode) (arrivals : List Datagram) (writer : W)
    (eg ep : EngineOutcome) :
    (Client.get c file mode arrivals writer eg = Except.ok writer
       ∨ ∃ e, Client.get c file mode arrivals writer eg = Except.error e)
    ∧ (Client.put c file mode arrivals ep = Except.ok ()
       ∨ ∃ e, Client.put c file mode arrivals ep = Except.error e) := by
  constructor
  · cases h : (Client.getHandshake c file mode arrivals).2 with
    | error e => exact Or.inr ⟨e, by simp [Client.get, h]⟩
    | ok v =>
        cases eg with
        | none => exact Or.inl (by simp [Client.get, h])
        | some e => exact Or.inr ⟨e, by simp [Client.get, h]⟩
  · cases h : (Client.putHandshake c file mode arrivals).2 with
    | error e => exact Or.inr ⟨e, by simp [Client.put, h]⟩
    | ok v =>
        cases ep with
        | none => exact Or.inl (by simp [Client.put, h])
        | some e => exact Or.inr ⟨e, by simp [Client.put, h]⟩

/-- Encoding then decoding an ACK returns the block number, for every
in-range block number. -/
theorem ackBytes_roundtrip (n : Nat) (h : n < 65536) :
    ackFromBytes (ackBytes n) = Except.ok n := by
  have h1 : n / 256 < 256 := Nat.div_lt_of_lt_mul h
  have h2 : n / 256 % 256 = n / 256 := Nat.mod_eq_of_lt h1
  have h3 : n / 256 * 256 + n % 256 = n := Nat.div_add_mod' n 256
  simp [ackFromBytes, ackBytes, h2, h3]

/-- C9: the put handshake accepts a reply of ACK(n) for every block
number n, not only ACK(0) — the decoded block number is discarded and
never compared against 0, so any well-formed ACK completes the
handshake and yields the `Connection`. -/
theorem put_accepts_any_ack_block_number (c : Client) (file : String)
    (mode : Mode) (n : Nat) (src : SocketAddr) (rest : List Datagram)
    (hs : c.server ≠ []) (hn : n < 65536) :
    (Client.putHandshake c file mode ({ payload := ackBytes n, src } :: rest)).2
      = Except.ok
          (Connection.new { c.socket with connectedTo := some src }
             (c.retransmission_config.bind (fun conf => conf.max_retransmissions)),
           rest) := by
  simp [Client.putHandshake, hs, ackBytes_roundtrip n hn, Connection.new]

/-- C9 witness: a reply of ACK(7) — a nonzero block number — completes
a concrete put handshake. -/
theorem put_accepts_any_ack_block_number_witness :
    (Client.putHandshake sampleClient "f" Mode.octet
        [{ payload := ackBytes 7, src := 9 }]).2
      = Except.ok
          (Connection.new { sampleClient.socket with connectedTo := some 9 }
             (sampleClient.retransmission_config.bind (fun conf => conf.max_retransmissions)),
           []) :=
  put_accepts_any_ack_block_number sampleClient "f" Mode.octet 7 9 []
    (by decide) (by decide)

/-- C10: the get handshake connects the socket to the source address
of whichever datagram arrives first — no hypothesis relates that
sender to the resolved server list — so the `Connection` is fixed on
that sender for all subsequent traffic. -/
theorem get_connects_to_first_sender_unchecked (c : Client) (file : String)
    (mode : Mode) (d : Datagram) (rest : List Datagram) (hs : c.server ≠ []) :
    SockEvent.connect d.src ∈ (Client.getHandshake c file mode (d :: rest)).1
    ∧ (Client.getHandshake c file mode (d :: rest)).2
        = Except.ok
            (Connection.new { c.socket with connectedTo := some d.src }
               (c.retransmission_config.bind (fun conf => conf.max_retransmissions)),
             d :: rest) := by
  constructor
  · simp [Client.getHandshake, hs]
  · simp [Client.getHandshake, hs, Connection.new]

/-- C10 witness: a first reply from address 99 — not on the resolved
server list [5] — still becomes the connected peer. -/
theorem get_connects_to_first_sender_unchecked_witness :
    (99 : SocketAddr) ∉ sampleClient.server
    ∧ SockEvent.connect 99
        ∈ (Client.getHandshake sampleClient "f" Mode.octet
             [{ payload := [0, 3, 0, 1, 65], src := 99 }]).1
    ∧ (Client.getHandshake sampleClient "f" Mode.octet
          [{ payload := [0, 3, 0, 1, 65], src := 99 }]).2
        = Except.ok
            (Connection.new { sampleClient.socket with connectedTo := some 99 }
               (sampleClient.retransmission_config.bind
                  (fun conf => conf.max_retransmissions)),
             [{ payload := [0, 3, 0, 1, 65], src := 99 }]) :=
  ⟨by decide,
   (get_connects_to_first_sender_unchecked sampleClient "f" Mode.octet
       { payload := [0, 3, 0, 1, 65], src := 99 } [] (by decide)).1,
   (get_connects_to_first_sender_unchecked sampleClient "f" Mode.octet
       { payload := [0, 3, 0, 1, 65], src := 99 } [] (by decide)).2⟩

end Tftp
